import Mathlib

/-!
Verification of the `VROParticleEmitter` particle system from the react-viro iOS
ViroKit headers.  The class interface and every inline member function are embedded
from `src/ios/dist/ViroKit.framework/Headers/VROParticleEmitter.h`.  Member functions
that the header only declares (their bodies live in a translation unit that is not
part of the repository snapshot) are modelled from the accompanying specification and
carry a doc comment beginning `Modelled from the spec:`.  C++ `double` and `float`
fields are modelled by `ℚ`, `int` by `Int`, `std::vector` by `List`, `std::pair` by
a product; the leading underscore of C++ member names is dropped.  Randomness is
supplied externally as a stream `Nat → Nat` consumed at explicit positions.
-/

namespace Viro

/-- Assumed mass of a single particle, used for all physics calculations
(`kAssumedParticleMass` in the header). -/
def kAssumedParticleMass : ℚ := 1

/-- Three-component vector (`VROVector3f`); float components modelled by `ℚ`. -/
structure VROVector3f where
  x : ℚ
  y : ℚ
  z : ℚ
deriving DecidableEq

/-- Shape tag of a spawn volume (`VROParticleSpawnVolume::Shape`). -/
inductive SpawnShape where
  | Box
  | Sphere
  | Point
deriving DecidableEq

/-- Volume describing the area around which particles spawn
(`VROParticleSpawnVolume`). -/
structure VROParticleSpawnVolume where
  shape : SpawnShape
  shapeParams : List ℚ
  spawnOnSurface : Bool
deriving DecidableEq

/-- Modelled from the spec: `VROParticleModifier::VROModifierFactor` is declared in
`VROParticleModifier.h`, which is not under src/.  Per the spec (data model and
glossary), the reference factor of a burst is either elapsed time or distance
traveled. -/
inductive VROModifierFactor where
  | Time
  | Distance
deriving DecidableEq

/-- Burst descriptor (`VROParticleEmitter::VROParticleBurst`): reference factor,
closed min-max particle count range, start threshold, repeat interval and number of
cycles. -/
structure VROParticleBurst where
  referenceFactor : VROModifierFactor
  numberOfParticles : Int × Int
  referenceValueStart : ℚ
  referenceValueInterval : ℚ
  cycles : Int
deriving DecidableEq

/-- Modelled from the spec: the `VROParticle` record type is not under src/.  The
data-model section lists position, velocity, acceleration, spawn time, computed
alpha, color, scale, rotation, an alive-zombie flag, and (for pool reclamation) the
kill time; the assigned lifetime is sampled at spawn. -/
structure VROParticle where
  position : VROVector3f
  velocity : VROVector3f
  acceleration : VROVector3f
  spawnTimeMs : ℚ
  lifetime : ℚ
  alpha : ℚ
  color : VROVector3f
  scale : VROVector3f
  rotation : VROVector3f
  isZombie : Bool
  killTimeMs : ℚ
deriving DecidableEq

/-- Emitter state (`VROParticleEmitter`), fields in header order.  The six shared
modifier slots are omitted: `VROParticleModifier` is not under src/ and no claim
below concerns the modifier pipeline.  The pool is modelled per the spec: `particles`
holds the live records and `zombieParticles` the recently killed ones awaiting
reuse. -/
structure VROParticleEmitter where
  particles : List VROParticle
  zombieParticles : List VROParticle
  requestRun : Bool
  run : Bool
  duration : ℚ
  loop : Bool
  fixToEmitter : Bool
  bursts : List VROParticleBurst
  scheduledBurst : List VROParticleBurst
  maxParticles : Int
  particleLifeTime : Int × Int
  emitterDelayDuration : ℚ
  emitterDelayStartTime : ℚ
  emitterDelayTimePassedSoFar : ℚ
  emitterTotalPassedTime : ℚ
  emitterPassedTimeSoFar : ℚ
  emitterStartTimeMs : ℚ
  emitterTotalPassedDistance : ℚ
  emitterPassedDistanceSoFar : ℚ
  emitterStartLocation : VROVector3f
  particlesEmittedPerMeter : Int × Int
  distanceSpawnedLastEmitPosition : VROVector3f
  distanceSpawnedInitPosition : VROVector3f
  distanceSpawnedEmissionRate : ℚ
  particlesEmittedPerSecond : Int × Int
  intervalSpawnedLastEmitTime : ℚ
  intervalSpawnedInitTime : ℚ
  particlesSpawnIntervalMs : ℚ
  intervalSpawnedEmissionRate : ℚ
  currentVolume : VROParticleSpawnVolume
  explosionCenter : VROVector3f
  impulseExplosionMagnitude : ℚ
  impulseDeaccelerationExplosionPeriod : ℚ
deriving DecidableEq

/-- Inline setter from the header: `setRun(bool emit)` assigns `_requestRun = emit`. -/
def setRun (e : VROParticleEmitter) (emit : Bool) : VROParticleEmitter :=
  { e with requestRun := emit }

/-- Inline setter from the header: `setDuration`. -/
def setDuration (e : VROParticleEmitter) (d : ℚ) : VROParticleEmitter :=
  { e with duration := d }

/-- Inline setter from the header: `setDelay` assigns `_emitterDelayDuration`. -/
def setDelay (e : VROParticleEmitter) (d : ℚ) : VROParticleEmitter :=
  { e with emitterDelayDuration := d }

/-- Inline setter from the header: `setLoop`. -/
def setLoop (e : VROParticleEmitter) (l : Bool) : VROParticleEmitter :=
  { e with loop := l }

/-- Inline setter from the header: `setFixedToEmitter`. -/
def setFixedToEmitter (e : VROParticleEmitter) (isFixed : Bool) : VROParticleEmitter :=
  { e with fixToEmitter := isFixed }

/-- Inline setter from the header: `setMaxParticles` stores the argument verbatim. -/
def setMaxParticles (e : VROParticleEmitter) (m : Int) : VROParticleEmitter :=
  { e with maxParticles := m }

/-- Inline setter from the header: `setParticleLifeTime` stores the pair verbatim. -/
def setParticleLifeTime (e : VROParticleEmitter) (lt : Int × Int) : VROParticleEmitter :=
  { e with particleLifeTime := lt }

/-- Inline setter from the header: `setEmissionRatePerSecond`. -/
def setEmissionRatePerSecond (e : VROParticleEmitter) (rate : Int × Int) : VROParticleEmitter :=
  { e with particlesEmittedPerSecond := rate }

/-- Inline setter from the header: `setEmissionRatePerDistance`. -/
def setEmissionRatePerDistance (e : VROParticleEmitter) (rate : Int × Int) : VROParticleEmitter :=
  { e with particlesEmittedPerMeter := rate }

/-- Inline setter from the header: `setParticleBursts` assigns the argument to both
`_bursts` and `_scheduledBurst`. -/
def setParticleBursts (e : VROParticleEmitter) (bs : List VROParticleBurst) : VROParticleEmitter :=
  { e with bursts := bs, scheduledBurst := bs }

/-- Inline setter from the header: `setParticleSpawnVolume`. -/
def setParticleSpawnVolume (e : VROParticleEmitter) (v : VROParticleSpawnVolume) : VROParticleEmitter :=
  { e with currentVolume := v }

/-- Inline setter from the header: `setInitialExplosion(explosionPoint,
impulseExplosion, decelleration)`.  The C++ declaration gives the third parameter the
default value `-1`; see `setInitialExplosionDefault` for the two-argument call. -/
def setInitialExplosion (e : VROParticleEmitter) (explosionPoint : VROVector3f)
    (impulseExplosion : ℚ) (decelleration : ℚ) : VROParticleEmitter :=
  { e with explosionCenter := explosionPoint,
           impulseExplosionMagnitude := impulseExplosion,
           impulseDeaccelerationExplosionPeriod := decelleration }

/-- The two-argument form of `setInitialExplosion`: in the header the omitted third
argument defaults to `-1`. -/
def setInitialExplosionDefault (e : VROParticleEmitter) (explosionPoint : VROVector3f)
    (impulseExplosion : ℚ) : VROParticleEmitter :=
  setInitialExplosion e explosionPoint impulseExplosion (-1)

/-- Default particle record used when constructing a fresh pool entry. -/
def defaultParticle : VROParticle :=
  { position := ⟨0, 0, 0⟩
    velocity := ⟨0, 0, 0⟩
    acceleration := ⟨0, 0, 0⟩
    spawnTimeMs := 0
    lifetime := 0
    alpha := 1
    color := ⟨1, 1, 1⟩
    scale := ⟨1, 1, 1⟩
    rotation := ⟨0, 0, 0⟩
    isZombie := false
    killTimeMs := 0 }

/-- The emitter with its in-class member-initializer values from the header
(`_emitterDelayDuration = -1`, `_emitterDelayStartTime = -1`,
`_particlesSpawnIntervalMs = 100`, `_impulseExplosionMagnitude = -1`,
`_impulseDeaccelerationExplosionPeriod = -1`, remaining initialized doubles `0`).
Fields without in-class initializers are set by `initEmitter`, whose body is not
under src/; they are given zero-values here, modelled from the spec. -/
def defaultVROParticleEmitter : VROParticleEmitter :=
  { particles := []
    zombieParticles := []
    requestRun := false
    run := false
    duration := 2000
    loop := false
    fixToEmitter := true
    bursts := []
    scheduledBurst := []
    maxParticles := 500
    particleLifeTime := (2000, 2000)
    emitterDelayDuration := -1
    emitterDelayStartTime := -1
    emitterDelayTimePassedSoFar := 0
    emitterTotalPassedTime := 0
    emitterPassedTimeSoFar := 0
    emitterStartTimeMs := 0
    emitterTotalPassedDistance := 0
    emitterPassedDistanceSoFar := 0
    emitterStartLocation := ⟨0, 0, 0⟩
    particlesEmittedPerMeter := (0, 0)
    distanceSpawnedLastEmitPosition := ⟨0, 0, 0⟩
    distanceSpawnedInitPosition := ⟨0, 0, 0⟩
    distanceSpawnedEmissionRate := 0
    particlesEmittedPerSecond := (10, 10)
    intervalSpawnedLastEmitTime := 0
    intervalSpawnedInitTime := 0
    particlesSpawnIntervalMs := 100
    intervalSpawnedEmissionRate := 0
    currentVolume := ⟨SpawnShape.Point, [], false⟩
    explosionCenter := ⟨0, 0, 0⟩
    impulseExplosionMagnitude := -1
    impulseDeaccelerationExplosionPeriod := -1 }

/-- A concrete emitter used by the witness theorems below. -/
def sampleEmitter : VROParticleEmitter :=
  { defaultVROParticleEmitter with
      maxParticles := 10
      particleLifeTime := (2, 5)
      duration := 1000 }

/-- Number of live (non-zombie) particles owned by the emitter. -/
def liveCount (e : VROParticleEmitter) : Nat :=
  e.particles.length

/-- Modelled from the spec: random sampling from a closed integer range, used for
lifetimes, emission rates and burst counts (scheduler and pool sections of the
spec).  A draw `r` from the external randomness stream is mapped into the range; an
inverted range falls back to its first component. -/
def sampleRange (r : Nat) (range : Int × Int) : Int :=
  if range.1 ≤ range.2 then range.1 + (r : Int) % (range.2 - range.1 + 1) else range.1

/-- Modelled from the spec: the scheduler measures straight-line displacement of the
emitter node.  The Euclidean magnitude is irrational in general, so the embedding
uses the squared Euclidean norm as its displacement measure; it is nonnegative and
vanishes exactly when the node has not moved, and no claim proved below depends on
its numeric value. -/
def displacementMeasure (a b : VROVector3f) : ℚ :=
  (b.x - a.x) ^ 2 + (b.y - a.y) ^ 2 + (b.z - a.z) ^ 2

/-- Draw mapped into the unit interval in steps of 1/1000, used by the spawn-volume
sampler. -/
def unitDraw (r : Nat) : ℚ :=
  ((r % 1000 : Nat) : ℚ) / 1000

/-- Modelled from the spec: `getPointInSpawnVolume` is declared in the header but its
body is not under src/.  Point volumes return the local origin; box and sphere
volumes return a pseudo-random local point scaled by the shape parameters.  The
surface-only flag and the uniformity of the distribution are abstracted; no claim
below depends on the sampled position. -/
def getPointInSpawnVolume (vol : VROParticleSpawnVolume) (r1 r2 r3 : Nat) : VROVector3f :=
  match vol.shape with
  | SpawnShape.Point => ⟨0, 0, 0⟩
  | SpawnShape.Box =>
      let w := vol.shapeParams.getD 0 0
      let h := vol.shapeParams.getD 1 0
      let l := vol.shapeParams.getD 2 0
      ⟨(unitDraw r1 - 1 / 2) * w, (unitDraw r2 - 1 / 2) * h, (unitDraw r3 - 1 / 2) * l⟩
  | SpawnShape.Sphere =>
      let rad := vol.shapeParams.getD 0 0
      ⟨(unitDraw r1 - 1 / 2) * 2 * rad, (unitDraw r2 - 1 / 2) * 2 * rad,
       (unitDraw r3 - 1 / 2) * 2 * rad⟩

/-- Modelled from the spec: `resetParticle` is declared in the header but its body is
not under src/.  Per the pool section of the spec, a reused or fresh record is reset
to defaults, given a fresh lifetime sampled from the configured closed range, and a
spawn position drawn from the current spawn volume. -/
def resetParticle (e : VROParticleEmitter) (t : ℚ) (r : Nat) (p : VROParticle) : VROParticle :=
  { p with
      position := getPointInSpawnVolume e.currentVolume r (r + 1) (r + 2)
      velocity := ⟨0, 0, 0⟩
      acceleration := ⟨0, 0, 0⟩
      spawnTimeMs := t
      lifetime := ((sampleRange r e.particleLifeTime : Int) : ℚ)
      alpha := 1
      color := ⟨1, 1, 1⟩
      scale := ⟨1, 1, 1⟩
      rotation := ⟨0, 0, 0⟩
      isZombie := false
      killTimeMs := 0 }

/-- Modelled from the spec: one unit of `spawnParticle` work.  Pop a zombie if one is
available and reset it for reuse; otherwise construct a fresh record provided the
live count is below `maxParticles`; otherwise silently no-op. -/
def spawnOne (e : VROParticleEmitter) (t : ℚ) (r : Nat) : VROParticleEmitter :=
  match e.zombieParticles with
  | z :: rest =>
      { e with zombieParticles := rest
               particles := resetParticle e t r z :: e.particles }
  | [] =>
      if (e.particles.length : Int) < e.maxParticles then
        { e with particles := resetParticle e t r defaultParticle :: e.particles }
      else e

/-- Iterates `spawnOne`, consuming the randomness stream from position `i`. -/
def spawnLoop (e : VROParticleEmitter) (n : Nat) (t : ℚ) (rng : Nat → Nat) (i : Nat) :
    VROParticleEmitter :=
  match n with
  | 0 => e
  | Nat.succ m => spawnLoop (spawnOne e t (rng i)) m t rng (i + 1)

/-- Modelled from the spec: `spawnParticle(numberOfParticles, currentTime)` is
declared in the header but its body is not under src/.  For each requested unit it
recycles a zombie when available and otherwise constructs a fresh record subject to
the capacity bound (pool section of the spec). -/
def spawnParticle (e : VROParticleEmitter) (numberOfParticles : Int) (t : ℚ)
    (rng : Nat → Nat) (i : Nat) : VROParticleEmitter :=
  spawnLoop e numberOfParticles.toNat t rng i

/-- Modelled from the spec: `getSpawnParticlesPerSecond` is declared in the header
but its body is not under src/.  Time-based count = floor of the sampled per-second
rate times the seconds elapsed since the last time-based spawn. -/
def getSpawnParticlesPerSecond (e : VROParticleEmitter) (t : ℚ) : Int :=
  Rat.floor (e.intervalSpawnedEmissionRate * ((t - e.intervalSpawnedLastEmitTime) / 1000))

/-- Modelled from the spec: `getSpawnParticlesPerMeter` is declared in the header but
its body is not under src/.  Distance-based count = floor of the sampled per-meter
rate times the displacement of the node since the last distance-based spawn. -/
def getSpawnParticlesPerMeter (e : VROParticleEmitter) (p : VROVector3f) : Int :=
  Rat.floor (e.distanceSpawnedEmissionRate *
    displacementMeasure e.distanceSpawnedLastEmitPosition p)

/-- Modelled from the spec: one scheduled-burst entry is examined against the current
reference value; if it still has cycles left and the reference value has crossed its
current threshold it fires, its count is sampled from its range, its threshold
advances by the interval and its remaining cycle count drops by one.  The fired-cycle
progress of an entry is carried in the mutated entry itself, as in the header where
`_scheduledBurst` has the same element type as `_bursts`. -/
def burstStep (timeRef distRef : ℚ) (r : Nat) (b : VROParticleBurst) :
    Int × VROParticleBurst :=
  let ref := match b.referenceFactor with
    | VROModifierFactor.Time => timeRef
    | VROModifierFactor.Distance => distRef
  if 0 < b.cycles ∧ b.referenceValueStart ≤ ref then
    (sampleRange r b.numberOfParticles,
     { b with referenceValueStart := b.referenceValueStart + b.referenceValueInterval
              cycles := b.cycles - 1 })
  else (0, b)

/-- Runs `burstStep` across the scheduled-burst list, totalling the counts and
returning the advanced list. -/
def fireBursts (timeRef distRef : ℚ) (rng : Nat → Nat) (i : Nat) :
    List VROParticleBurst → Int × List VROParticleBurst
  | [] => (0, [])
  | b :: bs =>
      let head := burstStep timeRef distRef (rng i) b
      let rest := fireBursts timeRef distRef rng (i + 1) bs
      (head.1 + rest.1, head.2 :: rest.2)

/-- Modelled from the spec: `getSpawnParticleBursts` is declared in the header but
its body is not under src/.  It totals the counts of all scheduled bursts that fire
at the current reference values. -/
def getSpawnParticleBursts (e : VROParticleEmitter) (rng : Nat → Nat) (i : Nat) : Int :=
  (fireBursts e.emitterTotalPassedTime e.emitterTotalPassedDistance rng i
    e.scheduledBurst).1

/-- The scheduler bookkeeping of a spawn pass: the scheduled-burst list is advanced
past the entries that fired, and each of the time and distance triggers that fired
re-samples its rate and advances its last-spawn mark. -/
def spawnBookkeeping (e : VROParticleEmitter) (t : ℚ) (p : VROVector3f)
    (rng : Nat → Nat) : VROParticleEmitter :=
  let nTime := getSpawnParticlesPerSecond e t
  let nDist := getSpawnParticlesPerMeter e p
  { e with
      scheduledBurst := (fireBursts e.emitterTotalPassedTime e.emitterTotalPassedDistance
        rng 0 e.scheduledBurst).2
      intervalSpawnedLastEmitTime := if 0 < nTime then t else e.intervalSpawnedLastEmitTime
      intervalSpawnedEmissionRate :=
        if 0 < nTime then ((sampleRange (rng 1000) e.particlesEmittedPerSecond : Int) : ℚ)
        else e.intervalSpawnedEmissionRate
      distanceSpawnedLastEmitPosition :=
        if 0 < nDist then p else e.distanceSpawnedLastEmitPosition
      distanceSpawnedEmissionRate :=
        if 0 < nDist then ((sampleRange (rng 1001) e.particlesEmittedPerMeter : Int) : ℚ)
        else e.distanceSpawnedEmissionRate }

/-- Modelled from the spec: `updateParticleSpawn` is declared in the header but its
body is not under src/.  Per the scheduler section, the three trigger counts are all
evaluated, summed and capped by the remaining pool capacity before spawning; excess
requested spawns are dropped, not queued. -/
def updateParticleSpawn (e : VROParticleEmitter) (t : ℚ) (p : VROVector3f)
    (rng : Nat → Nat) : VROParticleEmitter :=
  spawnParticle (spawnBookkeeping e t p rng)
    (min (getSpawnParticlesPerSecond e t + getSpawnParticlesPerMeter e p +
          getSpawnParticleBursts e rng 0)
         (max 0 (e.maxParticles - (liveCount e : Int))))
    t rng 2000

/-- Whether a live particle has exceeded its assigned lifetime at time `t`. -/
def isExpired (t : ℚ) (q : VROParticle) : Bool :=
  decide (q.lifetime < t - q.spawnTimeMs)

/-- Modelled from the spec: `updateParticlesToBeKilled` is declared in the header but
its body is not under src/.  Particles whose age exceeds their assigned lifetime move
from the live list to the zombie list. -/
def updateParticlesToBeKilled (e : VROParticleEmitter) (t : ℚ) : VROParticleEmitter :=
  { e with
      particles := e.particles.filter (fun q => ! isExpired t q)
      zombieParticles := e.zombieParticles ++
        (e.particles.filter (isExpired t)).map
          (fun q => { q with isZombie := true, killTimeMs := t }) }

/-- Modelled from the spec: the grace period after which zombie records are
hard-dropped; the spec leaves the constant unspecified.  No claim below depends on
its value. -/
def kZombieGracePeriodMs : ℚ := 500

/-- Modelled from the spec: `updateZombieParticles` is declared in the header but its
body is not under src/.  Zombies older than the grace period are dropped from the
zombie list to bound memory. -/
def updateZombieParticles (e : VROParticleEmitter) (t : ℚ) : VROParticleEmitter :=
  { e with zombieParticles :=
      e.zombieParticles.filter (fun q => decide (t - q.killTimeMs ≤ kZombieGracePeriodMs)) }

/-- Modelled from the spec: `processDelay` is declared in the header but its body is
not under src/.  Per the header comment on `_emitterDelayStartTime`, the delay is
still active while `_emitterDelayStartTime + _emitterDelayTimePassedSoFar` exceeds
the current time. -/
def processDelay (e : VROParticleEmitter) (t : ℚ) : Bool :=
  decide (t < e.emitterDelayStartTime + e.emitterDelayTimePassedSoFar)

/-- Modelled from the spec: `resetEmissionCycle(resetParticles)` is declared in the
header but its body is not under src/.  Per the state-machine section, it zeroes the
elapsed time and distance counters, restores the remaining delay to the configured
delay duration, restores the scheduled-burst list from the declared bursts, and, when
`resetParticles` is true, force-kills all live particles immediately. -/
def resetEmissionCycle (e : VROParticleEmitter) (resetParticles : Bool) : VROParticleEmitter :=
  let e1 := { e with
      emitterTotalPassedTime := 0
      emitterPassedTimeSoFar := 0
      emitterTotalPassedDistance := 0
      emitterPassedDistanceSoFar := 0
      emitterDelayTimePassedSoFar := e.emitterDelayDuration
      scheduledBurst := e.bursts }
  if resetParticles then
    { e1 with
        particles := []
        zombieParticles := e1.zombieParticles ++
          e1.particles.map (fun q => { q with isZombie := true }) }
  else e1

/-- True if the emitter is no longer emitting particles and has completed the
emission cycle (`finishedEmissionCycle`; body not under src/, modelled from the spec:
not looping, duration elapsed, and no live particles remain). -/
def finishedEmissionCycle (e : VROParticleEmitter) : Bool :=
  !e.loop && decide (e.duration ≤ e.emitterTotalPassedTime) && e.particles.isEmpty

/-- Modelled from the spec: `updateEmitter` is declared in the header but its body is
not under src/.  It applies a pending run-flag request at the frame boundary: a
resume re-bases the start time, delay start time and start location at the current
frame; a pause folds the elapsed time and displacement into the passed-so-far
counters and subtracts the elapsed delay from the remaining delay, freezing it.
While running, the cycle totals are recomputed from the passed-so-far counters and
the current frame. -/
def updateEmitter (e : VROParticleEmitter) (t : ℚ) (p : VROVector3f) : VROParticleEmitter :=
  let e1 :=
    match e.requestRun, e.run with
    | true, false =>
        { e with run := true
                 emitterStartTimeMs := t
                 emitterDelayStartTime := t
                 emitterStartLocation := p }
    | false, true =>
        { e with run := false
                 emitterPassedTimeSoFar := e.emitterPassedTimeSoFar + (t - e.emitterStartTimeMs)
                 emitterPassedDistanceSoFar := e.emitterPassedDistanceSoFar +
                   displacementMeasure e.emitterStartLocation p
                 emitterDelayTimePassedSoFar := e.emitterDelayTimePassedSoFar -
                   (t - e.emitterDelayStartTime)
                 emitterTotalPassedTime := e.emitterPassedTimeSoFar + (t - e.emitterStartTimeMs)
                 emitterTotalPassedDistance := e.emitterPassedDistanceSoFar +
                   displacementMeasure e.emitterStartLocation p }
    | b, _ => { e with run := b }
  match e1.run with
  | true =>
      { e1 with
          emitterTotalPassedTime := e1.emitterPassedTimeSoFar + (t - e1.emitterStartTimeMs)
          emitterTotalPassedDistance := e1.emitterPassedDistanceSoFar +
            displacementMeasure e1.emitterStartLocation p }
  | false => e1

/-- Whether the frame restarts a full emission cycle: the emitter is running, looping
is enabled and the configured duration has elapsed. -/
def shouldLoopRestart (e : VROParticleEmitter) : Bool :=
  e.run && e.loop && decide (e.duration ≤ e.emitterTotalPassedTime)

/-- The loop-restart step of a frame: when `shouldLoopRestart` holds, the emission
cycle is reset without force-killing live particles, which finish naturally. -/
def processLoopRestart (e : VROParticleEmitter) : VROParticleEmitter :=
  if shouldLoopRestart e then resetEmissionCycle e false else e

/-- Input of one frame: the render-context time in milliseconds, the world position
of the emitter node, and the external randomness stream for this frame. -/
structure FrameInput where
  timeMs : ℚ
  position : VROVector3f
  rng : Nat → Nat

/-- Modelled from the spec: `update(context)` is declared in the header but its body
is not under src/.  Per the control-flow section: the state machine applies the
pending run request and advances the counters, a finished cycle restarts when
looping, expired particles move to the zombie list, stale zombies are reclaimed, and,
when the emitter is running and not delaying, the scheduler spawns new particles.
The physics and appearance passes mutate only per-particle motion and visual
attributes; the modifier classes they evaluate are not under src/ and no claim below
concerns them, so they are not embedded. -/
def update (e : VROParticleEmitter) (f : FrameInput) : VROParticleEmitter :=
  let e1 := updateEmitter e f.timeMs f.position
  let e2 := processLoopRestart e1
  let delayed := processDelay e2 f.timeMs
  let e3 := updateParticlesToBeKilled e2 f.timeMs
  let e4 := updateZombieParticles e3 f.timeMs
  if e4.run && ! delayed then updateParticleSpawn e4 f.timeMs f.position f.rng else e4

/-- The state after pausing via `setRun false` and running one frame. -/
def pauseState (e : VROParticleEmitter) (f : FrameInput) : VROParticleEmitter :=
  update (setRun e false) f

/-- The state after resuming the paused emitter via `setRun true` and running one
frame with the same input. -/
def resumeState (e : VROParticleEmitter) (f : FrameInput) : VROParticleEmitter :=
  update (setRun (pauseState e f) true) f

/-- A fixed randomness stream for the witness theorems. -/
def constRng : Nat → Nat := fun _ => 0

/-- A concrete frame input used by the witness theorems. -/
def sampleFrame : FrameInput :=
  ⟨5, ⟨1, 2, 3⟩, constRng⟩

/-- A concrete emitter holding one zombie record, used by the witness theorems. -/
def zombieEmitter : VROParticleEmitter :=
  { sampleEmitter with zombieParticles := [defaultParticle] }

/-- A concrete running, looping emitter whose duration has elapsed, used by the
witness theorems. -/
def loopEmitter : VROParticleEmitter :=
  { sampleEmitter with run := true, requestRun := true, loop := true,
                       duration := 10, emitterTotalPassedTime := 20 }

/-- A concrete running emitter used by the witness theorems. -/
def runningEmitter : VROParticleEmitter :=
  { sampleEmitter with run := true, requestRun := true }

/-! Basic lemmas about the embedded operations. -/

/-- The sampled value lies in the configured closed range when the range is not
inverted. -/
theorem sampleRange_mem (r : Nat) (lo hi : Int) (h : lo ≤ hi) :
    lo ≤ sampleRange r (lo, hi) ∧ sampleRange r (lo, hi) ≤ hi := by
  have hd : 0 < hi - lo + 1 := by omega
  have h1 : 0 ≤ (r : Int) % (hi - lo + 1) := Int.emod_nonneg _ (by omega)
  have h2 : (r : Int) % (hi - lo + 1) < hi - lo + 1 := Int.emod_lt_of_pos _ hd
  have hs : sampleRange r (lo, hi) = lo + (r : Int) % (hi - lo + 1) := by
    unfold sampleRange
    rw [if_pos h]
  rw [hs]
  omega

/-- The displacement measure of a point from itself is zero. -/
theorem displacementMeasure_self (p : VROVector3f) : displacementMeasure p p = 0 := by
  simp [displacementMeasure]

/-- One spawn unit changes only the live and zombie lists. -/
theorem spawnOne_shape (e : VROParticleEmitter) (t : ℚ) (r : Nat) :
    ∃ ps zs, spawnOne e t r = { e with particles := ps, zombieParticles := zs } := by
  cases hz : e.zombieParticles with
  | cons z rest =>
      refine ⟨resetParticle e t r z :: e.particles, rest, ?_⟩
      simp only [spawnOne, hz]
  | nil =>
      by_cases hc : (e.particles.length : Int) < e.maxParticles
      · refine ⟨resetParticle e t r defaultParticle :: e.particles, [], ?_⟩
        simp only [spawnOne, hz, if_pos hc]
      · refine ⟨e.particles, [], ?_⟩
        simp only [spawnOne, hz, if_neg hc]
        rw [← hz]

/-- The spawn loop changes only the live and zombie lists. -/
theorem spawnLoop_shape (n : Nat) (t : ℚ) (rng : Nat → Nat) :
    ∀ (e : VROParticleEmitter) (i : Nat),
      ∃ ps zs, spawnLoop e n t rng i = { e with particles := ps, zombieParticles := zs } := by
  induction n with
  | zero => exact fun e i => ⟨e.particles, e.zombieParticles, rfl⟩
  | succ m ih =>
      intro e i
      obtain ⟨ps, zs, h⟩ := ih (spawnOne e t (rng i)) (i + 1)
      obtain ⟨ps0, zs0, h0⟩ := spawnOne_shape e t (rng i)
      refine ⟨ps, zs, ?_⟩
      show spawnLoop (spawnOne e t (rng i)) m t rng (i + 1) = _
      rw [h, h0]

/-- All emitter fields other than the live and zombie lists are unchanged by the
spawn loop. -/
theorem spawnLoop_preserves (n : Nat) (t : ℚ) (rng : Nat → Nat) (e : VROParticleEmitter)
    (i : Nat) :
    (spawnLoop e n t rng i).emitterDelayTimePassedSoFar = e.emitterDelayTimePassedSoFar ∧
    (spawnLoop e n t rng i).emitterTotalPassedTime = e.emitterTotalPassedTime ∧
    (spawnLoop e n t rng i).emitterTotalPassedDistance = e.emitterTotalPassedDistance ∧
    (spawnLoop e n t rng i).run = e.run ∧
    (spawnLoop e n t rng i).loop = e.loop ∧
    (spawnLoop e n t rng i).duration = e.duration ∧
    (spawnLoop e n t rng i).maxParticles = e.maxParticles ∧
    (spawnLoop e n t rng i).scheduledBurst = e.scheduledBurst ∧
    (spawnLoop e n t rng i).particleLifeTime = e.particleLifeTime ∧
    (spawnLoop e n t rng i).requestRun = e.requestRun := by
  obtain ⟨ps, zs, h⟩ := spawnLoop_shape n t rng e i
  rw [h]
  exact ⟨rfl, rfl, rfl, rfl, rfl, rfl, rfl, rfl, rfl, rfl⟩

/-- A spawn unit adds at most one live particle. -/
theorem spawnOne_liveCount_le (e : VROParticleEmitter) (t : ℚ) (r : Nat) :
    liveCount (spawnOne e t r) ≤ liveCount e + 1 := by
  cases hz : e.zombieParticles with
  | cons z rest => simp [spawnOne, liveCount, hz]
  | nil =>
      by_cases hc : (e.particles.length : Int) < e.maxParticles
      · simp [spawnOne, liveCount, hz, if_pos hc]
      · simp only [spawnOne, liveCount, hz, if_neg hc]
        omega

/-- Below capacity, a spawn unit adds exactly one live particle (recycling a zombie
needs no capacity check; a fresh construction passes it). -/
theorem spawnOne_liveCount_exact (e : VROParticleEmitter) (t : ℚ) (r : Nat)
    (h : (liveCount e : Int) < e.maxParticles) :
    liveCount (spawnOne e t r) = liveCount e + 1 := by
  cases hz : e.zombieParticles with
  | cons z rest => simp [spawnOne, liveCount, hz]
  | nil =>
      have hc : (e.particles.length : Int) < e.maxParticles := h
      simp [spawnOne, liveCount, hz, if_pos hc]

/-- The spawn loop adds at most `n` live particles. -/
theorem spawnLoop_liveCount_le (n : Nat) (t : ℚ) (rng : Nat → Nat) :
    ∀ (e : VROParticleEmitter) (i : Nat),
      liveCount (spawnLoop e n t rng i) ≤ liveCount e + n := by
  induction n with
  | zero => exact fun e i => Nat.le_refl _
  | succ m ih =>
      intro e i
      have h1 := spawnOne_liveCount_le e t (rng i)
      have h2 := ih (spawnOne e t (rng i)) (i + 1)
      show liveCount (spawnLoop (spawnOne e t (rng i)) m t rng (i + 1)) ≤ _
      omega

/-- When the whole request fits under the capacity bound, the spawn loop adds exactly
`n` live particles. -/
theorem spawnLoop_liveCount_exact (n : Nat) (t : ℚ) (rng : Nat → Nat) :
    ∀ (e : VROParticleEmitter) (i : Nat),
      (liveCount e : Int) + n ≤ e.maxParticles →
      liveCount (spawnLoop e n t rng i) = liveCount e + n := by
  induction n with
  | zero => exact fun e i _ => rfl
  | succ m ih =>
      intro e i h
      have h1 : (liveCount e : Int) < e.maxParticles := by omega
      have h2 := spawnOne_liveCount_exact e t (rng i) h1
      have h3 : (spawnOne e t (rng i)).maxParticles = e.maxParticles := by
        obtain ⟨ps, zs, hs⟩ := spawnOne_shape e t (rng i)
        rw [hs]
      have h4 := ih (spawnOne e t (rng i)) (i + 1) (by rw [h2, h3]; push_cast; push_cast at h; omega)
      show liveCount (spawnLoop (spawnOne e t (rng i)) m t rng (i + 1)) = _
      omega

/-- The bookkeeping step leaves the pool, the capacity configuration and the cycle
counters unchanged. -/
theorem spawnBookkeeping_preserves (e : VROParticleEmitter) (t : ℚ) (p : VROVector3f)
    (rng : Nat → Nat) :
    (spawnBookkeeping e t p rng).particles = e.particles ∧
    (spawnBookkeeping e t p rng).zombieParticles = e.zombieParticles ∧
    (spawnBookkeeping e t p rng).maxParticles = e.maxParticles ∧
    (spawnBookkeeping e t p rng).emitterDelayTimePassedSoFar = e.emitterDelayTimePassedSoFar ∧
    (spawnBookkeeping e t p rng).emitterTotalPassedTime = e.emitterTotalPassedTime ∧
    (spawnBookkeeping e t p rng).emitterTotalPassedDistance = e.emitterTotalPassedDistance ∧
    (spawnBookkeeping e t p rng).run = e.run ∧
    (spawnBookkeeping e t p rng).particleLifeTime = e.particleLifeTime ∧
    (spawnBookkeeping e t p rng).scheduledBurst =
      (fireBursts e.emitterTotalPassedTime e.emitterTotalPassedDistance rng 0
        e.scheduledBurst).2 :=
  ⟨rfl, rfl, rfl, rfl, rfl, rfl, rfl, rfl, rfl⟩

/-- The spawn pass adds exactly the capped number of live particles: the sum of the
three trigger counts, truncated at remaining capacity. -/
theorem updateParticleSpawn_liveCount (e : VROParticleEmitter) (t : ℚ) (p : VROVector3f)
    (rng : Nat → Nat) :
    liveCount (updateParticleSpawn e t p rng) =
      liveCount e +
        (min (getSpawnParticlesPerSecond e t + getSpawnParticlesPerMeter e p +
              getSpawnParticleBursts e rng 0)
             (max 0 (e.maxParticles - (liveCount e : Int)))).toNat := by
  have hL : liveCount (spawnBookkeeping e t p rng) = liveCount e := rfl
  have hM : (spawnBookkeeping e t p rng).maxParticles = e.maxParticles := rfl
  unfold updateParticleSpawn spawnParticle
  rcases le_or_lt (min (getSpawnParticlesPerSecond e t + getSpawnParticlesPerMeter e p +
      getSpawnParticleBursts e rng 0)
      (max 0 (e.maxParticles - (liveCount e : Int)))) 0 with hk | hk
  · rw [Int.toNat_of_nonpos hk]
    exact hL
  · have hcap : min (getSpawnParticlesPerSecond e t + getSpawnParticlesPerMeter e p +
        getSpawnParticleBursts e rng 0)
        (max 0 (e.maxParticles - (liveCount e : Int))) ≤
        max 0 (e.maxParticles - (liveCount e : Int)) := min_le_right _ _
    have hle : (liveCount (spawnBookkeeping e t p rng) : Int) +
        (min (getSpawnParticlesPerSecond e t + getSpawnParticlesPerMeter e p +
              getSpawnParticleBursts e rng 0)
             (max 0 (e.maxParticles - (liveCount e : Int)))).toNat ≤
        (spawnBookkeeping e t p rng).maxParticles := by
      rw [hL, hM]
      omega
    rw [spawnLoop_liveCount_exact _ t rng _ 2000 hle, hL]

/-- The frame-boundary step touches only the run flag, the pending request, the
start marks and the time and distance counters. -/
theorem updateEmitter_shape (e : VROParticleEmitter) (t : ℚ) (p : VROVector3f) :
    ∃ rq r q1 q2 q3 q4 q5 q6 q7 v,
      updateEmitter e t p =
        { e with requestRun := rq, run := r, emitterStartTimeMs := q1,
                 emitterDelayStartTime := q2, emitterStartLocation := v,
                 emitterPassedTimeSoFar := q3, emitterPassedDistanceSoFar := q4,
                 emitterDelayTimePassedSoFar := q5, emitterTotalPassedTime := q6,
                 emitterTotalPassedDistance := q7 } := by
  unfold updateEmitter
  cases ha : e.requestRun <;> cases hb : e.run <;> simp only [ha, hb] <;>
    exact ⟨_, _, _, _, _, _, _, _, _, _, rfl⟩

/-- The pool, the capacity configuration and the burst lists are unchanged by the
frame-boundary step. -/
theorem updateEmitter_preserves (e : VROParticleEmitter) (t : ℚ) (p : VROVector3f) :
    (updateEmitter e t p).particles = e.particles ∧
    (updateEmitter e t p).zombieParticles = e.zombieParticles ∧
    (updateEmitter e t p).maxParticles = e.maxParticles ∧
    (updateEmitter e t p).scheduledBurst = e.scheduledBurst ∧
    (updateEmitter e t p).bursts = e.bursts ∧
    (updateEmitter e t p).duration = e.duration ∧
    (updateEmitter e t p).loop = e.loop ∧
    (updateEmitter e t p).particleLifeTime = e.particleLifeTime := by
  obtain ⟨rq, r, q1, q2, q3, q4, q5, q6, q7, v, h⟩ := updateEmitter_shape e t p
  rw [h]
  exact ⟨rfl, rfl, rfl, rfl, rfl, rfl, rfl, rfl⟩

/-- The run flag after the frame-boundary step equals the pending request. -/
theorem updateEmitter_run (e : VROParticleEmitter) (t : ℚ) (p : VROVector3f) :
    (updateEmitter e t p).run = e.requestRun := by
  unfold updateEmitter
  cases ha : e.requestRun <;> cases hb : e.run <;> simp [ha, hb]

/-- The cycle reset restores the scheduled-burst list from the declared bursts. -/
theorem resetEmissionCycle_scheduledBurst (e : VROParticleEmitter) (b : Bool) :
    (resetEmissionCycle e b).scheduledBurst = e.bursts := by
  cases b <;> rfl

/-- Fields unchanged by the cycle reset. -/
theorem resetEmissionCycle_preserves (e : VROParticleEmitter) (b : Bool) :
    (resetEmissionCycle e b).run = e.run ∧
    (resetEmissionCycle e b).requestRun = e.requestRun ∧
    (resetEmissionCycle e b).maxParticles = e.maxParticles ∧
    (resetEmissionCycle e b).bursts = e.bursts ∧
    (resetEmissionCycle e b).duration = e.duration ∧
    (resetEmissionCycle e b).loop = e.loop ∧
    (resetEmissionCycle e b).particleLifeTime = e.particleLifeTime := by
  cases b <;> exact ⟨rfl, rfl, rfl, rfl, rfl, rfl, rfl⟩

/-- A reset without particle reset keeps the live list. -/
theorem resetEmissionCycle_false_particles (e : VROParticleEmitter) :
    (resetEmissionCycle e false).particles = e.particles := rfl

/-- The loop-restart step keeps the live list. -/
theorem processLoopRestart_particles (e : VROParticleEmitter) :
    (processLoopRestart e).particles = e.particles := by
  unfold processLoopRestart
  split
  · exact resetEmissionCycle_false_particles e
  · rfl

/-- Fields unchanged by the loop-restart step. -/
theorem processLoopRestart_preserves (e : VROParticleEmitter) :
    (processLoopRestart e).run = e.run ∧
    (processLoopRestart e).maxParticles = e.maxParticles ∧
    (processLoopRestart e).bursts = e.bursts ∧
    (processLoopRestart e).duration = e.duration ∧
    (processLoopRestart e).loop = e.loop ∧
    (processLoopRestart e).particleLifeTime = e.particleLifeTime := by
  unfold processLoopRestart
  split
  · have h := resetEmissionCycle_preserves e false
    exact ⟨h.1, h.2.2.1, h.2.2.2.1, h.2.2.2.2.1, h.2.2.2.2.2.1, h.2.2.2.2.2.2⟩
  · exact ⟨rfl, rfl, rfl, rfl, rfl, rfl⟩

/-- Fields unchanged by the kill pass. -/
theorem updateParticlesToBeKilled_preserves (e : VROParticleEmitter) (t : ℚ) :
    (updateParticlesToBeKilled e t).run = e.run ∧
    (updateParticlesToBeKilled e t).maxParticles = e.maxParticles ∧
    (updateParticlesToBeKilled e t).scheduledBurst = e.scheduledBurst ∧
    (updateParticlesToBeKilled e t).bursts = e.bursts ∧
    (updateParticlesToBeKilled e t).emitterDelayTimePassedSoFar = e.emitterDelayTimePassedSoFar ∧
    (updateParticlesToBeKilled e t).emitterTotalPassedTime = e.emitterTotalPassedTime ∧
    (updateParticlesToBeKilled e t).emitterTotalPassedDistance = e.emitterTotalPassedDistance :=
  ⟨rfl, rfl, rfl, rfl, rfl, rfl, rfl⟩

/-- Fields unchanged by the zombie reclamation pass. -/
theorem updateZombieParticles_preserves (e : VROParticleEmitter) (t : ℚ) :
    (updateZombieParticles e t).particles = e.particles ∧
    (updateZombieParticles e t).run = e.run ∧
    (updateZombieParticles e t).maxParticles = e.maxParticles ∧
    (updateZombieParticles e t).scheduledBurst = e.scheduledBurst ∧
    (updateZombieParticles e t).bursts = e.bursts ∧
    (updateZombieParticles e t).emitterDelayTimePassedSoFar = e.emitterDelayTimePassedSoFar ∧
    (updateZombieParticles e t).emitterTotalPassedTime = e.emitterTotalPassedTime ∧
    (updateZombieParticles e t).emitterTotalPassedDistance = e.emitterTotalPassedDistance :=
  ⟨rfl, rfl, rfl, rfl, rfl, rfl, rfl, rfl⟩

/-- Counters, flags and configuration unchanged by the spawn pass; the scheduled
bursts advance by the fired entries. -/
theorem updateParticleSpawn_preserves (e : VROParticleEmitter) (t : ℚ) (p : VROVector3f)
    (rng : Nat → Nat) :
    (updateParticleSpawn e t p rng).emitterDelayTimePassedSoFar = e.emitterDelayTimePassedSoFar ∧
    (updateParticleSpawn e t p rng).emitterTotalPassedTime = e.emitterTotalPassedTime ∧
    (updateParticleSpawn e t p rng).emitterTotalPassedDistance = e.emitterTotalPassedDistance ∧
    (updateParticleSpawn e t p rng).run = e.run ∧
    (updateParticleSpawn e t p rng).maxParticles = e.maxParticles ∧
    (updateParticleSpawn e t p rng).scheduledBurst =
      (fireBursts e.emitterTotalPassedTime e.emitterTotalPassedDistance rng 0
        e.scheduledBurst).2 := by
  unfold updateParticleSpawn spawnParticle
  have h := spawnLoop_preserves
    ((min (getSpawnParticlesPerSecond e t + getSpawnParticlesPerMeter e p +
          getSpawnParticleBursts e rng 0)
         (max 0 (e.maxParticles - (liveCount e : Int)))).toNat)
    t rng (spawnBookkeeping e t p rng) 2000
  exact ⟨h.1, h.2.1, h.2.2.1, h.2.2.2.1, h.2.2.2.2.2.2.1, h.2.2.2.2.2.2.2.1⟩

/-- The maximum-particle configuration is unchanged by a frame. -/
theorem update_maxParticles (e : VROParticleEmitter) (f : FrameInput) :
    (update e f).maxParticles = e.maxParticles := by
  simp only [update]
  split
  · rw [(updateParticleSpawn_preserves _ _ _ _).2.2.2.2.1,
        (updateZombieParticles_preserves _ _).2.2.1,
        (updateParticlesToBeKilled_preserves _ _).2.1,
        (processLoopRestart_preserves _).2.1,
        (updateEmitter_preserves _ _ _).2.2.1]
  · rw [(updateZombieParticles_preserves _ _).2.2.1,
        (updateParticlesToBeKilled_preserves _ _).2.1,
        (processLoopRestart_preserves _).2.1,
        (updateEmitter_preserves _ _ _).2.2.1]

/-- The run flag after a frame equals the request pending before it. -/
theorem update_run (e : VROParticleEmitter) (f : FrameInput) :
    (update e f).run = e.requestRun := by
  simp only [update]
  split
  · rw [(updateParticleSpawn_preserves _ _ _ _).2.2.2.1,
        (updateZombieParticles_preserves _ _).2.1,
        (updateParticlesToBeKilled_preserves _ _).1,
        (processLoopRestart_preserves _).1,
        updateEmitter_run]
  · rw [(updateZombieParticles_preserves _ _).2.1,
        (updateParticlesToBeKilled_preserves _ _).1,
        (processLoopRestart_preserves _).1,
        updateEmitter_run]

/-- Before the spawn pass, a frame can only shrink the live list, and it keeps the
capacity configuration. -/
theorem preSpawn_state (e : VROParticleEmitter) (t : ℚ) (p : VROVector3f) :
    liveCount (updateZombieParticles (updateParticlesToBeKilled
        (processLoopRestart (updateEmitter e t p)) t) t) ≤ liveCount e ∧
    (updateZombieParticles (updateParticlesToBeKilled
        (processLoopRestart (updateEmitter e t p)) t) t).maxParticles = e.maxParticles := by
  constructor
  · have h1 : liveCount (updateZombieParticles (updateParticlesToBeKilled
        (processLoopRestart (updateEmitter e t p)) t) t) =
        ((processLoopRestart (updateEmitter e t p)).particles.filter
          (fun q => ! isExpired t q)).length := rfl
    rw [h1, processLoopRestart_particles, (updateEmitter_preserves e t p).1]
    exact List.length_filter_le _ _
  · rw [(updateZombieParticles_preserves _ _).2.2.1,
        (updateParticlesToBeKilled_preserves _ _).2.1,
        (processLoopRestart_preserves _).2.1,
        (updateEmitter_preserves _ _ _).2.2.1]

/-- One frame preserves the live-particle capacity invariant. -/
theorem update_liveCount_bound (e : VROParticleEmitter) (f : FrameInput)
    (h : (liveCount e : Int) ≤ e.maxParticles) :
    (liveCount (update e f) : Int) ≤ (update e f).maxParticles := by
  rw [update_maxParticles]
  have hpre := preSpawn_state e f.timeMs f.position
  simp only [update]
  split
  · rw [updateParticleSpawn_liveCount]
    have hmin := min_le_right
      (getSpawnParticlesPerSecond (updateZombieParticles (updateParticlesToBeKilled
          (processLoopRestart (updateEmitter e f.timeMs f.position)) f.timeMs) f.timeMs) f.timeMs +
        getSpawnParticlesPerMeter (updateZombieParticles (updateParticlesToBeKilled
          (processLoopRestart (updateEmitter e f.timeMs f.position)) f.timeMs) f.timeMs) f.position +
        getSpawnParticleBursts (updateZombieParticles (updateParticlesToBeKilled
          (processLoopRestart (updateEmitter e f.timeMs f.position)) f.timeMs) f.timeMs) f.rng 0)
      (max 0 ((updateZombieParticles (updateParticlesToBeKilled
          (processLoopRestart (updateEmitter e f.timeMs f.position)) f.timeMs) f.timeMs).maxParticles -
        (liveCount (updateZombieParticles (updateParticlesToBeKilled
          (processLoopRestart (updateEmitter e f.timeMs f.position)) f.timeMs) f.timeMs) : Int)))
    rw [hpre.2] at hmin
    have hc1 := hpre.1
    have hc2 := hpre.2
    omega
  · have hc1 := hpre.1
    have hc2 := hpre.2
    omega

/-- Advancing the scheduled bursts never restores spent cycles: every entry keeps a
remaining-cycle count at most its previous one. -/
theorem fireBursts_cycles_le (timeRef distRef : ℚ) (rng : Nat → Nat) :
    ∀ (bs : List VROParticleBurst) (i : Nat),
      List.Forall₂ (fun b2 b1 => b2.cycles ≤ b1.cycles)
        (fireBursts timeRef distRef rng i bs).2 bs := by
  intro bs
  induction bs with
  | nil => intro i; simp [fireBursts]
  | cons b rest ih =>
      intro i
      simp only [fireBursts]
      refine List.Forall₂.cons ?_ (ih (i + 1))
      unfold burstStep
      split <;> dsimp only <;> split <;> simp

/-- The scheduled-burst list after a frame, when the frame does not restart the
cycle: only the spawn pass touches it, and only by advancing fired entries. -/
theorem update_scheduledBurst_mono (e : VROParticleEmitter) (f : FrameInput)
    (h : shouldLoopRestart (updateEmitter e f.timeMs f.position) = false) :
    List.Forall₂ (fun b2 b1 => b2.cycles ≤ b1.cycles)
      (update e f).scheduledBurst e.scheduledBurst := by
  have hpl : processLoopRestart (updateEmitter e f.timeMs f.position) =
      updateEmitter e f.timeMs f.position := by
    unfold processLoopRestart
    rw [h]
    simp
  simp only [update]
  rw [hpl]
  split
  · rw [(updateParticleSpawn_preserves _ _ _ _).2.2.2.2.2,
        (updateZombieParticles_preserves _ _).2.2.2.1,
        (updateParticlesToBeKilled_preserves _ _).2.2.1,
        (updateEmitter_preserves _ _ _).2.2.2.1]
    exact fireBursts_cycles_le _ _ _ _ _
  · rw [(updateZombieParticles_preserves _ _).2.2.2.1,
        (updateParticlesToBeKilled_preserves _ _).2.2.1,
        (updateEmitter_preserves _ _ _).2.2.2.1]
    exact List.forall₂_same.mpr (fun x _ => le_refl x.cycles)

/-- Further fields unchanged by the spawn loop. -/
theorem spawnLoop_preserves2 (n : Nat) (t : ℚ) (rng : Nat → Nat) (e : VROParticleEmitter)
    (i : Nat) :
    (spawnLoop e n t rng i).emitterPassedTimeSoFar = e.emitterPassedTimeSoFar ∧
    (spawnLoop e n t rng i).emitterPassedDistanceSoFar = e.emitterPassedDistanceSoFar ∧
    (spawnLoop e n t rng i).emitterStartTimeMs = e.emitterStartTimeMs ∧
    (spawnLoop e n t rng i).emitterDelayStartTime = e.emitterDelayStartTime := by
  obtain ⟨ps, zs, h⟩ := spawnLoop_shape n t rng e i
  rw [h]
  exact ⟨rfl, rfl, rfl, rfl⟩

/-- Further fields unchanged by the spawn pass. -/
theorem updateParticleSpawn_preserves2 (e : VROParticleEmitter) (t : ℚ) (p : VROVector3f)
    (rng : Nat → Nat) :
    (updateParticleSpawn e t p rng).emitterPassedTimeSoFar = e.emitterPassedTimeSoFar ∧
    (updateParticleSpawn e t p rng).emitterPassedDistanceSoFar = e.emitterPassedDistanceSoFar ∧
    (updateParticleSpawn e t p rng).loop = e.loop ∧
    (updateParticleSpawn e t p rng).duration = e.duration := by
  unfold updateParticleSpawn spawnParticle
  have h1 := spawnLoop_preserves
    ((min (getSpawnParticlesPerSecond e t + getSpawnParticlesPerMeter e p +
          getSpawnParticleBursts e rng 0)
         (max 0 (e.maxParticles - (liveCount e : Int)))).toNat)
    t rng (spawnBookkeeping e t p rng) 2000
  have h2 := spawnLoop_preserves2
    ((min (getSpawnParticlesPerSecond e t + getSpawnParticlesPerMeter e p +
          getSpawnParticleBursts e rng 0)
         (max 0 (e.maxParticles - (liveCount e : Int)))).toNat)
    t rng (spawnBookkeeping e t p rng) 2000
  exact ⟨h2.1, h2.2.1, h1.2.2.2.2.1, h1.2.2.2.2.2.1⟩

/-- An emitter that is not running never restarts its cycle. -/
theorem shouldLoopRestart_of_run_false (x : VROParticleEmitter) (h : x.run = false) :
    shouldLoopRestart x = false := by
  unfold shouldLoopRestart
  rw [h]
  rfl

/-- An emitter whose elapsed cycle time is still below the duration never restarts
its cycle. -/
theorem shouldLoopRestart_eq_false (x : VROParticleEmitter)
    (h : x.loop = true → x.emitterTotalPassedTime < x.duration) :
    shouldLoopRestart x = false := by
  unfold shouldLoopRestart
  cases hl : x.loop with
  | false => simp [hl]
  | true => simp [hl, decide_eq_false (not_le.mpr (h hl))]

/-- When the frame does not restart the cycle, the counters after the frame are those
computed by the frame-boundary step, and the loop flag and duration are unchanged. -/
theorem update_fields_of_norestart (x : VROParticleEmitter) (f : FrameInput)
    (h : shouldLoopRestart (updateEmitter x f.timeMs f.position) = false) :
    (update x f).emitterDelayTimePassedSoFar =
      (updateEmitter x f.timeMs f.position).emitterDelayTimePassedSoFar ∧
    (update x f).emitterTotalPassedTime =
      (updateEmitter x f.timeMs f.position).emitterTotalPassedTime ∧
    (update x f).emitterTotalPassedDistance =
      (updateEmitter x f.timeMs f.position).emitterTotalPassedDistance ∧
    (update x f).emitterPassedTimeSoFar =
      (updateEmitter x f.timeMs f.position).emitterPassedTimeSoFar ∧
    (update x f).emitterPassedDistanceSoFar =
      (updateEmitter x f.timeMs f.position).emitterPassedDistanceSoFar ∧
    (update x f).loop = x.loop ∧
    (update x f).duration = x.duration := by
  have hpl : processLoopRestart (updateEmitter x f.timeMs f.position) =
      updateEmitter x f.timeMs f.position := by
    unfold processLoopRestart
    rw [h]
    simp
  simp only [update]
  rw [hpl]
  split
  · refine ⟨(updateParticleSpawn_preserves _ _ _ _).1,
        (updateParticleSpawn_preserves _ _ _ _).2.1,
        (updateParticleSpawn_preserves _ _ _ _).2.2.1,
        (updateParticleSpawn_preserves2 _ _ _ _).1,
        (updateParticleSpawn_preserves2 _ _ _ _).2.1, ?_, ?_⟩
    · rw [(updateParticleSpawn_preserves2 _ _ _ _).2.2.1]
      exact (updateEmitter_preserves _ _ _).2.2.2.2.2.2.1
    · rw [(updateParticleSpawn_preserves2 _ _ _ _).2.2.2]
      exact (updateEmitter_preserves _ _ _).2.2.2.2.2.1
  · exact ⟨rfl, rfl, rfl, rfl, rfl,
        (updateEmitter_preserves _ _ _).2.2.2.2.2.2.1,
        (updateEmitter_preserves _ _ _).2.2.2.2.2.1⟩

/-- The frame-boundary step on a pause request: the run flag drops, the elapsed time
and displacement fold into the passed-so-far counters, the elapsed delay is
subtracted from the remaining delay (freezing it), and the cycle totals take the
folded values. -/
theorem updateEmitter_pause (d : VROParticleEmitter) (t : ℚ) (p : VROVector3f)
    (hreq : d.requestRun = false) (hrun : d.run = true) :
    updateEmitter d t p =
      { d with run := false
               emitterPassedTimeSoFar := d.emitterPassedTimeSoFar + (t - d.emitterStartTimeMs)
               emitterPassedDistanceSoFar := d.emitterPassedDistanceSoFar +
                 displacementMeasure d.emitterStartLocation p
               emitterDelayTimePassedSoFar := d.emitterDelayTimePassedSoFar -
                 (t - d.emitterDelayStartTime)
               emitterTotalPassedTime := d.emitterPassedTimeSoFar + (t - d.emitterStartTimeMs)
               emitterTotalPassedDistance := d.emitterPassedDistanceSoFar +
                 displacementMeasure d.emitterStartLocation p } := by
  unfold updateEmitter
  simp only [hreq, hrun]

/-- The frame-boundary step on a resume request: the run flag rises, the start marks
re-base at the current frame, the remaining delay is untouched, and the cycle totals
equal the frozen passed-so-far counters. -/
theorem updateEmitter_resume (d : VROParticleEmitter) (t : ℚ) (p : VROVector3f)
    (hreq : d.requestRun = true) (hrun : d.run = false) :
    updateEmitter d t p =
      { d with run := true
               emitterStartTimeMs := t
               emitterDelayStartTime := t
               emitterStartLocation := p
               emitterTotalPassedTime := d.emitterPassedTimeSoFar
               emitterTotalPassedDistance := d.emitterPassedDistanceSoFar } := by
  unfold updateEmitter
  simp only [hreq, hrun]
  simp [displacementMeasure_self, VROParticleEmitter.mk.injEq]

/-- The observable fields of the pause frame: run drops, loop and duration are kept,
the remaining delay is frozen (elapsed delay subtracted, not reset), and the cycle
totals agree with the folded passed-so-far counters. -/
theorem pause_fields (e : VROParticleEmitter) (f : FrameInput) (hrun : e.run = true) :
    (pauseState e f).run = false ∧
    (pauseState e f).loop = e.loop ∧
    (pauseState e f).duration = e.duration ∧
    (pauseState e f).emitterDelayTimePassedSoFar =
      e.emitterDelayTimePassedSoFar - (f.timeMs - e.emitterDelayStartTime) ∧
    (pauseState e f).emitterPassedTimeSoFar =
      e.emitterPassedTimeSoFar + (f.timeMs - e.emitterStartTimeMs) ∧
    (pauseState e f).emitterTotalPassedTime =
      e.emitterPassedTimeSoFar + (f.timeMs - e.emitterStartTimeMs) ∧
    (pauseState e f).emitterPassedDistanceSoFar =
      e.emitterPassedDistanceSoFar + displacementMeasure e.emitterStartLocation f.position ∧
    (pauseState e f).emitterTotalPassedDistance =
      e.emitterPassedDistanceSoFar + displacementMeasure e.emitterStartLocation f.position := by
  have hE := updateEmitter_pause (setRun e false) f.timeMs f.position rfl hrun
  have hstop : shouldLoopRestart (updateEmitter (setRun e false) f.timeMs f.position) = false := by
    rw [hE]
    exact shouldLoopRestart_of_run_false _ rfl
  obtain ⟨hdl, htt, htd, hpt, hpd, hlp, hdu⟩ :=
    update_fields_of_norestart (setRun e false) f hstop
  refine ⟨?_, ?_, ?_, ?_, ?_, ?_, ?_, ?_⟩
  · rw [pauseState, update_run]
    rfl
  · rw [pauseState, hlp]
    rfl
  · rw [pauseState, hdu]
    rfl
  · rw [pauseState, hdl, hE]
    rfl
  · rw [pauseState, hpt, hE]
    rfl
  · rw [pauseState, htt, hE]
    rfl
  · rw [pauseState, hpd, hE]
    rfl
  · rw [pauseState, htd, hE]
    rfl

/-- The observable fields of the resume frame, for a paused emitter whose cycle has
not yet elapsed: the remaining delay and the frozen passed-so-far counters come back
unchanged as the new cycle totals. -/
theorem resume_fields (d : VROParticleEmitter) (f : FrameInput)
    (hrun : d.run = false)
    (hnl : d.loop = true → d.emitterPassedTimeSoFar < d.duration) :
    (update (setRun d true) f).emitterDelayTimePassedSoFar = d.emitterDelayTimePassedSoFar ∧
    (update (setRun d true) f).emitterTotalPassedTime = d.emitterPassedTimeSoFar ∧
    (update (setRun d true) f).emitterTotalPassedDistance = d.emitterPassedDistanceSoFar := by
  have hE := updateEmitter_resume (setRun d true) f.timeMs f.position rfl hrun
  have hstop : shouldLoopRestart (updateEmitter (setRun d true) f.timeMs f.position) = false := by
    rw [hE]
    apply shouldLoopRestart_eq_false
    intro hl
    exact hnl hl
  obtain ⟨hdl, htt, htd, hpt, hpd, hlp, hdu⟩ :=
    update_fields_of_norestart (setRun d true) f hstop
  exact ⟨by rw [hdl, hE]; rfl, by rw [htt, hE]; rfl, by rw [htd, hE]; rfl⟩

/-- A particle in the live list after one spawn unit is either an old live particle
or a freshly reset record. -/
theorem spawnOne_particles_cases (e : VROParticleEmitter) (t : ℚ) (r : Nat) (q : VROParticle)
    (hq : q ∈ (spawnOne e t r).particles) :
    q ∈ e.particles ∨ ∃ p0, q = resetParticle e t r p0 := by
  cases hz : e.zombieParticles with
  | cons z rest =>
      rw [show (spawnOne e t r).particles = resetParticle e t r z :: e.particles from by
        simp only [spawnOne, hz]] at hq
      rcases List.mem_cons.mp hq with h1 | h2
      · exact Or.inr ⟨z, h1⟩
      · exact Or.inl h2
  | nil =>
      by_cases hc : (e.particles.length : Int) < e.maxParticles
      · rw [show (spawnOne e t r).particles = resetParticle e t r defaultParticle :: e.particles from by
          simp only [spawnOne, hz, if_pos hc]] at hq
        rcases List.mem_cons.mp hq with h1 | h2
        · exact Or.inr ⟨defaultParticle, h1⟩
        · exact Or.inl h2
      · rw [show (spawnOne e t r).particles = e.particles from by
          simp only [spawnOne, hz, if_neg hc]] at hq
        exact Or.inl hq

/-- A reset record receives a lifetime inside the configured closed range. -/
theorem resetParticle_lifetime (e : VROParticleEmitter) (t : ℚ) (r : Nat) (p0 : VROParticle)
    (h : e.particleLifeTime.1 ≤ e.particleLifeTime.2) :
    (e.particleLifeTime.1 : ℚ) ≤ (resetParticle e t r p0).lifetime ∧
    (resetParticle e t r p0).lifetime ≤ (e.particleLifeTime.2 : ℚ) := by
  have hs := sampleRange_mem r e.particleLifeTime.1 e.particleLifeTime.2 h
  constructor
  · show (e.particleLifeTime.1 : ℚ) ≤ ((sampleRange r e.particleLifeTime : Int) : ℚ)
    exact_mod_cast hs.1
  · show ((sampleRange r e.particleLifeTime : Int) : ℚ) ≤ (e.particleLifeTime.2 : ℚ)
    exact_mod_cast hs.2

/-- Every particle live after the spawn loop is an old live particle or carries a
lifetime inside the configured closed range. -/
theorem spawnLoop_lifetime (n : Nat) (t : ℚ) (rng : Nat → Nat) :
    ∀ (e : VROParticleEmitter) (i : Nat),
      e.particleLifeTime.1 ≤ e.particleLifeTime.2 →
      ∀ q ∈ (spawnLoop e n t rng i).particles,
        q ∈ e.particles ∨
          ((e.particleLifeTime.1 : ℚ) ≤ q.lifetime ∧
           q.lifetime ≤ (e.particleLifeTime.2 : ℚ)) := by
  induction n with
  | zero => exact fun e i _ q hq => Or.inl hq
  | succ m ih =>
      intro e i h q hq
      have hplt : (spawnOne e t (rng i)).particleLifeTime = e.particleLifeTime := by
        obtain ⟨ps, zs, hs⟩ := spawnOne_shape e t (rng i)
        rw [hs]
      have hq2 : q ∈ (spawnLoop (spawnOne e t (rng i)) m t rng (i + 1)).particles := hq
      rcases ih (spawnOne e t (rng i)) (i + 1) (by rw [hplt]; exact h) q hq2 with hmem | hrange
      · rcases spawnOne_particles_cases e t (rng i) q hmem with h1 | ⟨p0, hp0⟩
        · exact Or.inl h1
        · right
          rw [hp0]
          exact resetParticle_lifetime e t (rng i) p0 h
      · right
        rw [hplt] at hrange
        exact hrange

/-! The claims. -/

/-- C1.  Over every sequence of update frames the number of live (non-zombie)
particles never exceeds the configured `maxParticles` (the capacity invariant is
preserved from any state satisfying it, whatever spawn counts the frames request),
and `spawnParticle` reuses a zombie record whenever one is available before
constructing a fresh record: with a zombie available, one spawn unit pops it and
recycles it via `resetParticle`. -/
theorem claim_c1_live_bound_and_zombie_reuse :
    (∀ (e : VROParticleEmitter) (fs : List FrameInput),
        (liveCount e : Int) ≤ e.maxParticles →
        (liveCount (fs.foldl update e) : Int) ≤ (fs.foldl update e).maxParticles) ∧
    (∀ (e : VROParticleEmitter) (n : Int) (t : ℚ) (rng : Nat → Nat) (i : Nat)
        (z : VROParticle) (zs : List VROParticle),
        e.zombieParticles = z :: zs → 1 ≤ n →
        spawnParticle e n t rng i =
          spawnParticle
            { e with zombieParticles := zs
                     particles := resetParticle e t (rng i) z :: e.particles }
            (n - 1) t rng (i + 1)) := by
  constructor
  · intro e fs
    induction fs generalizing e with
    | nil => exact fun h => h
    | cons f rest ih =>
        intro h
        exact ih (update e f) (update_liveCount_bound e f h)
  · intro e n t rng i z zs hz hn
    unfold spawnParticle
    have h1 : n.toNat = (n - 1).toNat + 1 := by omega
    rw [h1]
    show spawnLoop (spawnOne e t (rng i)) (n - 1).toNat t rng (i + 1) = _
    congr 1
    simp only [spawnOne, hz]

/-- Witness for C1 at a concrete emitter, frame and zombie pool. -/
theorem claim_c1_witness :
    ((liveCount sampleEmitter : Int) ≤ sampleEmitter.maxParticles ∧
     (liveCount ([sampleFrame].foldl update sampleEmitter) : Int) ≤
       ([sampleFrame].foldl update sampleEmitter).maxParticles) ∧
    (zombieEmitter.zombieParticles = [defaultParticle] ∧ (1 : Int) ≤ 1 ∧
     spawnParticle zombieEmitter 1 5 constRng 0 =
       spawnParticle
         { zombieEmitter with
             zombieParticles := []
             particles := resetParticle zombieEmitter 5 (constRng 0) defaultParticle ::
               zombieEmitter.particles }
         (1 - 1) 5 constRng (0 + 1)) :=
  ⟨⟨by decide, claim_c1_live_bound_and_zombie_reuse.1 sampleEmitter [sampleFrame] (by decide)⟩,
   ⟨rfl, by decide,
    claim_c1_live_bound_and_zombie_reuse.2 zombieEmitter 1 5 constRng 0 defaultParticle []
      rfl (by decide)⟩⟩

/-- C2.  `setRun b` writes only the pending-request flag, leaving the active
emission flag and every other field unchanged; the run flag changes only at the next
frame boundary, where the update pass adopts the pending request. -/
theorem claim_c2_setRun_deferred (e : VROParticleEmitter) (b : Bool) (f : FrameInput) :
    setRun e b = { e with requestRun := b } ∧
    (setRun e b).run = e.run ∧
    (setRun e b).requestRun = b ∧
    (update (setRun e b) f).run = b := by
  refine ⟨rfl, rfl, rfl, ?_⟩
  rw [update_run]
  rfl

/-- C3, counterexample.  The inline setters store out-of-domain values verbatim: a
negative maximum is stored (neither clamped into the valid domain nor ignored), and
an inverted lifetime range is stored as given. -/
theorem claim_c3_counterexample :
    (setMaxParticles sampleEmitter (-5)).maxParticles = -5 ∧
    ¬ (0 ≤ (setMaxParticles sampleEmitter (-5)).maxParticles) ∧
    setMaxParticles sampleEmitter (-5) ≠ sampleEmitter ∧
    (setParticleLifeTime sampleEmitter (7, 2)).particleLifeTime = (7, 2) ∧
    ¬ ((setParticleLifeTime sampleEmitter (7, 2)).particleLifeTime.1 ≤
       (setParticleLifeTime sampleEmitter (7, 2)).particleLifeTime.2) ∧
    setParticleLifeTime sampleEmitter (7, 2) ≠ sampleEmitter := by
  refine ⟨rfl, by decide, ?_, rfl, by decide, ?_⟩
  · intro h
    have := congrArg VROParticleEmitter.maxParticles h
    simp [setMaxParticles, sampleEmitter, defaultVROParticleEmitter] at this
  · intro h
    have := congrArg VROParticleEmitter.particleLifeTime h
    simp [setParticleLifeTime, sampleEmitter, defaultVROParticleEmitter] at this

/-- C3, amended.  The configuration setters perform no validation at this boundary:
`setMaxParticles` and `setParticleLifeTime` store their arguments verbatim, touching
no other field; out-of-domain values are stored as given (validation is left to the
owning layer). -/
theorem claim_c3_amended_verbatim_setters (e : VROParticleEmitter) (m : Int)
    (lt : Int × Int) :
    setMaxParticles e m = { e with maxParticles := m } ∧
    (setMaxParticles e m).maxParticles = m ∧
    setParticleLifeTime e lt = { e with particleLifeTime := lt } ∧
    (setParticleLifeTime e lt).particleLifeTime = lt :=
  ⟨rfl, rfl, rfl, rfl⟩

/-- C4.  Immediately after `resetEmissionCycle true` the live count is zero and both
elapsed-cycle counters (time and distance) are zero. -/
theorem claim_c4_reset_zeroes (e : VROParticleEmitter) :
    liveCount (resetEmissionCycle e true) = 0 ∧
    (resetEmissionCycle e true).emitterTotalPassedTime = 0 ∧
    (resetEmissionCycle e true).emitterTotalPassedDistance = 0 :=
  ⟨rfl, rfl, rfl⟩

/-- C5.  Each spawn decision evaluates all three triggers (time, distance, burst),
sums them, and caps the sum at remaining pool capacity: the live count grows by
exactly `min (sum of the three counts) (max 0 (maxParticles - live))`, so excess
requested spawns are dropped; no state field records the excess for a later frame. -/
theorem claim_c5_sum_and_cap (e : VROParticleEmitter) (t : ℚ) (p : VROVector3f)
    (rng : Nat → Nat) :
    liveCount (updateParticleSpawn e t p rng) =
      liveCount e +
        (min (getSpawnParticlesPerSecond e t + getSpawnParticlesPerMeter e p +
              getSpawnParticleBursts e rng 0)
             (max 0 (e.maxParticles - (liveCount e : Int)))).toNat :=
  updateParticleSpawn_liveCount e t p rng

/-- C6.  Pausing a delaying or running emitter and then resuming it with zero
simulated time elapsed leaves the remaining delay and the elapsed cycle time and
distance exactly at their values at pause (the remaining delay is frozen, not reset
to the full delay duration). -/
theorem claim_c6_pause_resume (e : VROParticleEmitter) (f : FrameInput)
    (hrun : e.run = true)
    (hnl : e.loop = true →
      e.emitterPassedTimeSoFar + (f.timeMs - e.emitterStartTimeMs) < e.duration) :
    (resumeState e f).emitterDelayTimePassedSoFar =
      (pauseState e f).emitterDelayTimePassedSoFar ∧
    (resumeState e f).emitterTotalPassedTime = (pauseState e f).emitterTotalPassedTime ∧
    (resumeState e f).emitterTotalPassedDistance =
      (pauseState e f).emitterTotalPassedDistance := by
  obtain ⟨hr, hlp, hdu, hdelay, hpt, htt, hpd, htd⟩ := pause_fields e f hrun
  have hnl2 : (pauseState e f).loop = true →
      (pauseState e f).emitterPassedTimeSoFar < (pauseState e f).duration := by
    intro hl
    rw [hpt, hdu]
    apply hnl
    rw [← hlp]
    exact hl
  obtain ⟨ra, rb, rc⟩ := resume_fields (pauseState e f) f hr hnl2
  refine ⟨?_, ?_, ?_⟩
  · rw [resumeState, ra]
  · rw [resumeState, rb, hpt, htt]
  · rw [resumeState, rc, hpd, htd]

/-- Witness for C6 at a concrete running emitter and frame. -/
theorem claim_c6_witness :
    runningEmitter.run = true ∧
    ((resumeState runningEmitter sampleFrame).emitterDelayTimePassedSoFar =
       (pauseState runningEmitter sampleFrame).emitterDelayTimePassedSoFar ∧
     (resumeState runningEmitter sampleFrame).emitterTotalPassedTime =
       (pauseState runningEmitter sampleFrame).emitterTotalPassedTime ∧
     (resumeState runningEmitter sampleFrame).emitterTotalPassedDistance =
       (pauseState runningEmitter sampleFrame).emitterTotalPassedDistance) :=
  ⟨rfl, claim_c6_pause_resume runningEmitter sampleFrame rfl
    (fun h => absurd h (by decide))⟩

/-- C7.  The scheduled-burst working list equals a fresh copy of the declared burst
list after a cycle reset with particle reset, and after the loop-flag cycle restart
(which performs the same reset without killing particles); on any frame that does
not restart the cycle, burst progress is never cleared: every scheduled entry keeps
a remaining-cycle count at most its previous one. -/
theorem claim_c7_scheduled_burst_reset :
    (∀ (e : VROParticleEmitter), (resetEmissionCycle e true).scheduledBurst = e.bursts) ∧
    (∀ (e : VROParticleEmitter), shouldLoopRestart e = true →
        (processLoopRestart e).scheduledBurst = e.bursts) ∧
    (∀ (e : VROParticleEmitter) (f : FrameInput),
        shouldLoopRestart (updateEmitter e f.timeMs f.position) = false →
        List.Forall₂ (fun b2 b1 => b2.cycles ≤ b1.cycles)
          (update e f).scheduledBurst e.scheduledBurst) := by
  refine ⟨fun e => resetEmissionCycle_scheduledBurst e true, ?_, ?_⟩
  · intro e h
    unfold processLoopRestart
    rw [h]
    simp [resetEmissionCycle_scheduledBurst]
  · exact update_scheduledBurst_mono

/-- Witness for C7 at a concrete restarting emitter and a concrete idle frame. -/
theorem claim_c7_witness :
    (shouldLoopRestart loopEmitter = true ∧
     (processLoopRestart loopEmitter).scheduledBurst = loopEmitter.bursts) ∧
    (shouldLoopRestart (updateEmitter sampleEmitter sampleFrame.timeMs
        sampleFrame.position) = false ∧
     List.Forall₂ (fun b2 b1 => b2.cycles ≤ b1.cycles)
       (update sampleEmitter sampleFrame).scheduledBurst sampleEmitter.scheduledBurst) :=
  ⟨⟨by decide, claim_c7_scheduled_burst_reset.2.1 loopEmitter (by decide)⟩,
   ⟨by decide, claim_c7_scheduled_burst_reset.2.2 sampleEmitter sampleFrame (by decide)⟩⟩

/-- C8.  With a non-inverted configured lifetime range, every particle newly spawned
by `spawnParticle` (recycled from a zombie or freshly constructed) is assigned a
lifetime inside the closed range. -/
theorem claim_c8_lifetime_in_range (e : VROParticleEmitter) (n : Int) (t : ℚ)
    (rng : Nat → Nat) (i : Nat)
    (h : e.particleLifeTime.1 ≤ e.particleLifeTime.2) :
    ∀ q ∈ (spawnParticle e n t rng i).particles,
      q ∈ e.particles ∨
        ((e.particleLifeTime.1 : ℚ) ≤ q.lifetime ∧
         q.lifetime ≤ (e.particleLifeTime.2 : ℚ)) :=
  spawnLoop_lifetime n.toNat t rng e i h

/-- Witness for C8 at a concrete emitter and the particle it spawns. -/
theorem claim_c8_witness :
    sampleEmitter.particleLifeTime.1 ≤ sampleEmitter.particleLifeTime.2 ∧
    (resetParticle sampleEmitter 5 0 defaultParticle ∈ sampleEmitter.particles ∨
      ((sampleEmitter.particleLifeTime.1 : ℚ) ≤
        (resetParticle sampleEmitter 5 0 defaultParticle).lifetime ∧
       (resetParticle sampleEmitter 5 0 defaultParticle).lifetime ≤
        (sampleEmitter.particleLifeTime.2 : ℚ))) :=
  ⟨by decide,
   claim_c8_lifetime_in_range sampleEmitter 1 5 constRng 0 (by decide)
     (resetParticle sampleEmitter 5 0 defaultParticle)
     (List.mem_cons_self _ _)⟩

/-- C9.  `setParticleBursts` assigns the same list to both the declared burst list
and the scheduled working copy in a single call, so any in-flight per-entry progress
of the current cycle is discarded and the schedule restarts from the new list. -/
theorem claim_c9_setParticleBursts_both (e : VROParticleEmitter)
    (bs : List VROParticleBurst) :
    setParticleBursts e bs = { e with bursts := bs, scheduledBurst := bs } ∧
    (setParticleBursts e bs).bursts = bs ∧
    (setParticleBursts e bs).scheduledBurst = bs :=
  ⟨rfl, rfl, rfl⟩

/-- C10.  The explosion feature uses `-1` as its unconfigured sentinel: both
`impulseExplosionMagnitude` and `impulseDeaccelerationExplosionPeriod` start at `-1`,
and the two-argument `setInitialExplosion` call (third argument omitted, defaulting
to `-1`) configures the impulse while leaving the deceleration period at the
sentinel. -/
theorem claim_c10_sentinel (e : VROParticleEmitter) (pt : VROVector3f) (imp : ℚ) :
    defaultVROParticleEmitter.impulseExplosionMagnitude = -1 ∧
    defaultVROParticleEmitter.impulseDeaccelerationExplosionPeriod = -1 ∧
    setInitialExplosionDefault e pt imp = setInitialExplosion e pt imp (-1) ∧
    (setInitialExplosionDefault e pt imp).impulseExplosionMagnitude = imp ∧
    (setInitialExplosionDefault e pt imp).impulseDeaccelerationExplosionPeriod = -1 ∧
    (setInitialExplosionDefault e pt imp).explosionCenter = pt :=
  ⟨rfl, rfl, rfl, rfl, rfl, rfl⟩

end Viro
